import Mathlib

/-!
Verification of the Kubernetes combustion component of `fdegir/sv-prow-poc`.

The development shallowly embeds two artefacts:

* `pkg/combustion/templates/k3s-multi-node-installer.sh.tpl` — the boot-time
  role-resolver script. Rendering the Go template is modelled as producing a
  list of structured `Chunk`s (each chunk corresponds to a contiguous block of
  the template, conditionals included), and running the script is modelled by
  the interpreter `execChunks`, which threads the shell variables
  (`HOSTNAME`, `NODETYPE`, `CONFIGFILE`) through the chunks and accumulates
  the external side effects (`BootEff`) on a fail-fast basis, exactly as
  `set -euo pipefail` does.
* `pkg/combustion/kubernetes.go` — the build-time orchestration. Filesystem
  primitives (`os.MkdirAll`, `os.WriteFile`, `fileio.CopyFiles`) are recorded
  as effects (`Eff`) that succeed; external collaborators (downloaders,
  cluster topology, registry mirror) are oracles supplied in a `Collab`
  record, with their fallibility modelled by `Except`.
-/

set_option autoImplicit false

namespace SvProw

/-- A declared cluster node: field `Hostname` and field `Type` of the Go
struct `image.Node` (the latter renamed `ntype` because `Type` is a Lean
keyword); `Type` holds the role string, `server` or `agent`. -/
structure Node where
  hostname : String
  ntype : String
deriving DecidableEq, Repr

/-! ## Boot-time environment and effects (template interpreter) -/

/-- What the booting machine looks like to the script: the contents of
`/etc/hostname`, the contents of `/proc/sys/kernel/hostname`, and whether the
staged registry-mirrors file exists (tested by `[ -f ... ]`). -/
structure BootEnv where
  etcHostname : String
  kernelHostname : String
  registryMirrorsExists : Bool
deriving DecidableEq, Repr

/-- External side effects performed by the rendered script, in program
order. File operations are modelled as succeeding (only the two hostname /
role checks abort the script in the template; any other command failure would
likewise abort under `set -e`, but no claim depends on that). -/
inductive BootEff
  | mountVar
  | mkdirImagesDir
  | copyImages (src : String)
  | umountVar
  | mkdirManifestsDir
  | copyManifests (src : String)
  | writeUnitFile
  | enableUnit
  | appendHostsEntry (vip host : String)
  | mkdirRancherDir
  | copyConfig (src : String)
  | copyRegistryMirrors (src : String)
  | mkdirBinDir
  | copyBinary (src : String)
  | chmodBinary
  | runInstallScript (script : String)
deriving DecidableEq, Repr

/-- Bash associative-array semantics for `hosts[$HOSTNAME]`: each
`hosts[h]=t` line overwrites previous assignments for the same key, so the
last matching node wins. Returns `none` when the key was never assigned. -/
def hostsLookup (nodes : List Node) (h : String) : Option String :=
  ((nodes.filter fun n => n.hostname = h).getLast?).map Node.ntype

/-- Bash expansion `NODETYPE="${hosts[$HOSTNAME]:-none}"`: an unset key — and, per bash
`:-` semantics, a key set to the empty string — yields `none`. -/
def nodeTypeOf (nodes : List Node) (h : String) : String :=
  match hostsLookup nodes h with
  | some t => if t = "" then "none" else t
  | none => "none"

/-- The template variables of `k3s-multi-node-installer.sh.tpl`, exactly the
keys the multi-node branch of `configureK3S` populates. -/
structure K3sMultiValues where
  installScript : String
  apiVIP : String
  apiHost : String
  binaryPath : String
  imagesPath : String
  manifestsPath : String
  configFilePath : String
  registryMirrors : String
  nodes : List Node
  initialiser : String
  initialiserConfigFile : String
deriving DecidableEq, Repr

/-- One contiguous block of the rendered script. Render-time conditionals
(`{{ if ... }}`) decide which chunks appear and with which payload;
boot-time conditionals live inside the interpreter. -/
inductive Chunk
  | header (nodes : List Node)
  | hostnameDiscovery
  | roleLookup
  | imageStaging (imagesPath : String)
  | setConfigFile (configFilePath : String)
  | initialiserBlock (initialiser configFilePath initialiserConfigFile : String)
      (manifestsPath : Option String)
  | vipHostsEntry (apiVIP apiHost : String)
  | configPlacement (registryMirrors : String)
  | installK3s (binaryPath installScript : String)
deriving DecidableEq, Repr

/-- Rendering the multi-node k3s template: the `nodes` range is expanded in
the header; `{{ if .manifestsPath }}` (Go truthiness: non-empty string) fixes
the payload of the initialiser block; `{{ if and .apiVIP .apiHost }}` decides
whether the hosts-file append chunk is emitted at all. -/
def renderK3sMultiNode (v : K3sMultiValues) : List Chunk :=
  [Chunk.header v.nodes, Chunk.hostnameDiscovery, Chunk.roleLookup,
   Chunk.imageStaging v.imagesPath,
   Chunk.setConfigFile v.configFilePath,
   Chunk.initialiserBlock v.initialiser v.configFilePath v.initialiserConfigFile
     (if v.manifestsPath = "" then none else some v.manifestsPath)]
  ++ (if v.apiVIP ≠ "" ∧ v.apiHost ≠ "" then [Chunk.vipHostsEntry v.apiVIP v.apiHost] else [])
  ++ [Chunk.configPlacement v.registryMirrors,
      Chunk.installK3s v.binaryPath v.installScript]

/-- The shell variables the script threads between chunks. -/
structure ShellSt where
  hosts : List Node := []
  hostname : String := ""
  nodetype : String := ""
  configFile : String := ""
deriving DecidableEq, Repr

/-- The fatal message of the hostname-discovery block. -/
def hostnameErrorMsg : String :=
  "ERROR: Could not identify whether the host is a k3s server or agent due to missing hostname"

/-- The fatal message of the role-lookup block (the `\x27` bytes are the
single quotes around the hostname). -/
def roleErrorMsg (h : String) : String :=
  "ERROR: Could not identify whether host \x27" ++ h ++ "\x27 is a k3s server or agent"

/-- Lines 10–17 of the template: take `/etc/hostname` when non-empty, else
fall back to `/proc/sys/kernel/hostname`, rejecting an empty fallback or the
`localhost.localdomain` placeholder. -/
def discoveredHostname (env : BootEnv) : Option String :=
  if env.etcHostname ≠ "" then some env.etcHostname
  else if env.kernelHostname = "" ∨ env.kernelHostname = "localhost.localdomain" then none
  else some env.kernelHostname

/-- Interpreter for a single chunk: returns the updated shell state and the
effects the chunk performs, or the fatal `echo`-ed error message. -/
def execChunk (env : BootEnv) (st : ShellSt) : Chunk → Except String (ShellSt × List BootEff)
  | Chunk.header nodes => Except.ok ({ st with hosts := nodes }, [])
  | Chunk.hostnameDiscovery =>
      match discoveredHostname env with
      | some h => Except.ok ({ st with hostname := h }, [])
      | none => Except.error hostnameErrorMsg
  | Chunk.roleLookup =>
      let t := nodeTypeOf st.hosts st.hostname
      if t = "none" then
        Except.error (roleErrorMsg st.hostname)
      else
        Except.ok ({ st with nodetype := t }, [])
  | Chunk.imageStaging p =>
      Except.ok (st, [BootEff.mountVar, BootEff.mkdirImagesDir, BootEff.copyImages p, BootEff.umountVar])
  | Chunk.setConfigFile cfp =>
      Except.ok ({ st with configFile := cfp ++ "/" ++ st.nodetype ++ ".yaml" }, [])
  | Chunk.initialiserBlock ini cfp inif mp =>
      if st.hostname = ini then
        let st' := { st with configFile := cfp ++ "/" ++ inif }
        match mp with
        | some p =>
            Except.ok (st', [BootEff.mkdirManifestsDir, BootEff.copyManifests p,
                             BootEff.writeUnitFile, BootEff.enableUnit])
        | none => Except.ok (st', [])
      else
        Except.ok (st, [])
  | Chunk.vipHostsEntry a b => Except.ok (st, [BootEff.appendHostsEntry a b])
  | Chunk.configPlacement rm =>
      Except.ok (st, [BootEff.mkdirRancherDir, BootEff.copyConfig st.configFile]
        ++ (if env.registryMirrorsExists then [BootEff.copyRegistryMirrors rm] else []))
  | Chunk.installK3s bp is =>
      Except.ok (st, [BootEff.mkdirBinDir, BootEff.copyBinary bp, BootEff.chmodBinary,
                      BootEff.runInstallScript is])

/-- Fail-fast execution of the chunk list (`set -euo pipefail`): on the first
error the effects already performed are kept and the error message returned;
no later chunk runs. -/
def execChunks (env : BootEnv) : ShellSt → List Chunk → List BootEff × Option String
  | _, [] => ([], none)
  | st, c :: cs =>
    match execChunk env st c with
    | Except.error e => ([], some e)
    | Except.ok (st', effs) =>
      let rest := execChunks env st' cs
      (effs ++ rest.1, rest.2)

/-- Running the whole rendered script from the initial (empty) shell state. -/
def runScript (env : BootEnv) (cs : List Chunk) : List BootEff × Option String :=
  execChunks env {} cs

/-- The config file the script ends up copying: the role's own file, unless
the hostname is exactly the initialiser's, in which case the initialiser
config file. -/
def selectedConfigFile (v : K3sMultiValues) (h ntype : String) : String :=
  if h = v.initialiser then v.configFilePath ++ "/" ++ v.initialiserConfigFile
  else v.configFilePath ++ "/" ++ ntype ++ ".yaml"

/-- The effect trace of a successful run of the rendered multi-node k3s
script, for discovered hostname `h` of node type `ntype`. -/
def scriptEffs (v : K3sMultiValues) (env : BootEnv) (h ntype : String) : List BootEff :=
  [BootEff.mountVar, BootEff.mkdirImagesDir, BootEff.copyImages v.imagesPath, BootEff.umountVar]
  ++ (if h = v.initialiser then
        (if v.manifestsPath = "" then []
         else [BootEff.mkdirManifestsDir, BootEff.copyManifests v.manifestsPath,
               BootEff.writeUnitFile, BootEff.enableUnit])
      else [])
  ++ (if v.apiVIP ≠ "" ∧ v.apiHost ≠ "" then [BootEff.appendHostsEntry v.apiVIP v.apiHost] else [])
  ++ [BootEff.mkdirRancherDir, BootEff.copyConfig (selectedConfigFile v h ntype)]
  ++ (if env.registryMirrorsExists then [BootEff.copyRegistryMirrors v.registryMirrors] else [])
  ++ [BootEff.mkdirBinDir, BootEff.copyBinary v.binaryPath, BootEff.chmodBinary,
      BootEff.runInstallScript v.installScript]

/-- The systemd unit text written by the initialiser block (heredoc of
lines 41–61 of the template). -/
def manifestUnitText : String :=
  "cat <<- EOF > /etc/systemd/system/kubernetes-resources-install.service\n" ++
  "[Unit]\n" ++
  "Description=Kubernetes Resources Install\n" ++
  "Requires=k3s.service\n" ++
  "After=k3s.service\n" ++
  "ConditionPathExists=/opt/bin/kubectl\n" ++
  "ConditionPathExists=/etc/rancher/k3s/k3s.yaml\n\n" ++
  "[Install]\n" ++
  "WantedBy=multi-user.target\n\n" ++
  "[Service]\n" ++
  "Type=oneshot\n" ++
  "Restart=on-failure\n" ++
  "RestartSec=60\n" ++
  "ExecStart=/opt/bin/kubectl apply -f /opt/eib-k8s/manifests --kubeconfig=/etc/rancher/k3s/k3s.yaml\n" ++
  "# Disable the service and clean up\n" ++
  "ExecStartPost=/bin/sh -c \"systemctl disable kubernetes-resources-install.service\"\n" ++
  "ExecStartPost=rm -f /etc/systemd/system/kubernetes-resources-install.service\n" ++
  "ExecStartPost=rm -rf /opt/eib-k8s\n" ++
  "EOF"

/-- The bash text of each chunk, byte-for-byte the template's output for the
chunk (the `\x7b` / `\x7d` bytes are braces, `\x27` single quotes). -/
def Chunk.text : Chunk → String
  | Chunk.header nodes =>
      "#!/bin/bash\nset -euo pipefail\n\ndeclare -A hosts" ++
      String.join (nodes.map fun n => "\nhosts[" ++ n.hostname ++ "]=" ++ n.ntype)
  | Chunk.hostnameDiscovery =>
      "HOSTNAME=$(cat /etc/hostname)\n" ++
      "if [ ! \"$HOSTNAME\" ]; then\n" ++
      "    HOSTNAME=$(cat /proc/sys/kernel/hostname)\n" ++
      "    if [ ! \"$HOSTNAME\" ] || [ \"$HOSTNAME\" = \"localhost.localdomain\" ]; then\n" ++
      "        echo \"" ++ hostnameErrorMsg ++ "\"\n" ++
      "        exit 1\n    fi\nfi"
  | Chunk.roleLookup =>
      "NODETYPE=\"$\x7bhosts[$HOSTNAME]:-none\x7d\"\n" ++
      "if [ \"$NODETYPE\" = \"none\" ]; then\n" ++
      "    echo \"ERROR: Could not identify whether host \x27$HOSTNAME\x27 is a k3s server or agent\"\n" ++
      "    exit 1\nfi"
  | Chunk.imageStaging p =>
      "mount /var\n\nmkdir -p /var/lib/rancher/k3s/agent/images/\n" ++
      "cp " ++ p ++ "/* /var/lib/rancher/k3s/agent/images/\n\numount /var"
  | Chunk.setConfigFile cfp =>
      "CONFIGFILE=" ++ cfp ++ "/$NODETYPE.yaml"
  | Chunk.initialiserBlock ini cfp inif mp =>
      "if [ \"$HOSTNAME\" = " ++ ini ++ " ]; then\n" ++
      "CONFIGFILE=" ++ cfp ++ "/" ++ inif ++
      (match mp with
       | some p =>
           "\n\nmkdir -p /opt/eib-k8s/manifests\n" ++
           "cp " ++ p ++ "/* /opt/eib-k8s/manifests/\n\n" ++
           manifestUnitText ++
           "\n\nsystemctl enable kubernetes-resources-install.service"
       | none => "") ++
      "\nfi"
  | Chunk.vipHostsEntry a b =>
      "echo \"" ++ a ++ " " ++ b ++ "\" >> /etc/hosts"
  | Chunk.configPlacement rm =>
      "mkdir -p /etc/rancher/k3s/\ncp $CONFIGFILE /etc/rancher/k3s/config.yaml\n\n" ++
      "if [ -f " ++ rm ++ " ]; then\ncp " ++ rm ++ " /etc/rancher/k3s/registries.yaml\nfi"
  | Chunk.installK3s bp is =>
      "export INSTALL_K3S_EXEC=$NODETYPE\n" ++
      "export INSTALL_K3S_SKIP_DOWNLOAD=true\n" ++
      "export INSTALL_K3S_SKIP_START=true\n" ++
      "export INSTALL_K3S_BIN_DIR=/opt/bin\n\n" ++
      "mkdir -p $INSTALL_K3S_BIN_DIR\n" ++
      "cp " ++ bp ++ " $INSTALL_K3S_BIN_DIR/k3s\n" ++
      "chmod +x $INSTALL_K3S_BIN_DIR/k3s\n\n" ++
      "sh " ++ is

/-- The rendered script as text: the chunks' text separated by blank
lines. -/
def renderK3sMultiNodeText (v : K3sMultiValues) : String :=
  String.intercalate "\n\n" ((renderK3sMultiNode v).map Chunk.text)

/-! ## Build-time model (`pkg/combustion/kubernetes.go`) -/

/-- Go's `strings.Contains s sub`: `sub` occurs as a contiguous substring. -/
def goContainsB (s sub : String) : Bool :=
  decide (List.IsInfix sub.data s.data)

def k8sDir : String := "kubernetes"
def k8sConfigDir : String := "config"
def k8sInstallDir : String := "install"
def k8sImagesDir : String := "images"
def k8sManifestsDir : String := "manifests"
def k8sInitServerConfigFile : String := "init_server.yaml"
def k8sServerConfigFile : String := "server.yaml"
def k8sAgentConfigFile : String := "agent.yaml"
def k8sInstallScript : String := "20-k8s-install.sh"

/-- Modelled from the spec: the distribution markers
`image.KubernetesDistroRKE2` / `image.KubernetesDistroK3S` live in the
`image` package, which is not under `src/`; the version string "encodes
distribution + semver" (§3), and the markers are the distribution names. -/
def kubernetesDistroRKE2 : String := "rke2"

/-- Modelled from the spec: see `kubernetesDistroRKE2`. -/
def kubernetesDistroK3S : String := "k3s"

/-- Modelled from the spec: `registryMirrorsFileName` is defined elsewhere in
the combustion package (not under `src/`); §6 fixes a registry-mirror config
file staged under the kubernetes artefact dir. Its exact value is irrelevant
to every claim. -/
def registryMirrorsFileName : String := "registries.yaml"

/-- Go's `filepath.Join` for two components. `filepath.Join` additionally
cleans the result; every component joined in this package is already a clean
relative path or a clean absolute directory, for which the two coincide. -/
def joinPath (a b : String) : String := a ++ "/" ++ b

/-- Modelled from the spec: `prependArtefactPath` (combustion package, not
under `src/`) prefixes an artefact-root-relative path with the artefact-root
variable so the rendered script resolves it at boot (§4.2 layout contract). -/
def prependArtefactPath (p : String) : String := joinPath "$ARTEFACTS_DIR" p

/-- Go struct `image.Network`: cluster-wide network settings consumed here. -/
structure Network where
  apiVIP : String
  apiHost : String
deriving DecidableEq, Repr

/-- The slice of `image.Kubernetes` consumed by this component. -/
structure Kubernetes where
  version : String
  network : Network
  nodes : List Node
deriving DecidableEq, Repr

/-- The slice of `image.Context` consumed by this component. -/
structure Context where
  imageConfigDir : String
  combustionDir : String
  artefactsDir : String
  arch : String
  kubernetes : Kubernetes
deriving DecidableEq, Repr

/-- The slice of `kubernetes.Cluster` consumed here: the designated
initialiser's hostname, and whether the optional initialiser / agent config
payloads are present (their content is opaque to this component). -/
structure Cluster where
  initialiserName : String
  hasInitialiserConfig : Bool
  hasAgentConfig : Bool
deriving DecidableEq, Repr

/-- One entry of `os.ReadDir`'s result. -/
structure DirEntry where
  name : String
  isDir : Bool
deriving DecidableEq, Repr

/-- A Helm chart object from the registry collaborator; only
`Metadata.Name` is consumed here. -/
structure HelmChart where
  name : String
deriving DecidableEq, Repr

deriving instance DecidableEq for Except

/-- The registry-mirror collaborator interface (§6): a manifests path (empty
string when it exposes none) and a fallible Helm charts listing. -/
structure Registry where
  manifestsPath : String
  helmCharts : Except String (List HelmChart)
deriving DecidableEq, Repr

/-- Oracles for the external collaborators (§6): each fallible call's
outcome, plus the install-directory contents observed after the k3s
download, and the optional registry collaborator. -/
structure Collab where
  installScriptName : Except String String
  k3sDownload : Except String Unit
  k3sInstallEntries : List DirEntry
  rke2Download : Except String Unit
  extractCNI : Except String (String × Bool)
  registry : Option Registry
  newCluster : Except String Cluster
deriving Repr

/-- The template-values map (`map[string]any`). Keys that are only set on
some code paths are `Option`s (`none` = key absent from the map). -/
structure TemplateValues where
  installScript : String
  apiVIP : String
  apiHost : String
  binaryPath : Option String
  installPath : Option String
  imagesPath : String
  manifestsPath : String
  configFilePath : String
  registryMirrors : String
  configFile : Option String
  nodes : Option (List Node)
  initialiser : Option String
  initialiserConfigFile : Option String
deriving DecidableEq, Repr

/-- Build-time side effects, in program order. `writeFileIn dir file`
records `os.WriteFile (dir/file)`; `renderScript` records which template was
parsed and with which values. -/
inductive Eff
  | mkdirAll (path : String)
  | writeFileIn (dir file : String)
  | copyFilesTo (src dest : String)
  | callNewCluster
  | callDownloadInstallScript (distribution : String)
  | callDownloadK3s (installDest imagesDest : String)
  | callDownloadRKE2 (installDest imagesDest : String)
  | readDir (path : String)
  | renderScript (templateName : String) (values : TemplateValues)
deriving DecidableEq, Repr

/-- Outcome of a build-time function: its return value or wrapped error, the
effects performed, and the audit warnings emitted along the way. -/
structure Run (α : Type) where
  result : Except String α
  effs : List Eff
  warnings : List String
deriving Repr

def twoServerWarning : String :=
  "WARNING: Kubernetes clusters consisting of two server nodes cannot form a highly available architecture"

def k3sSingleNodeVIPWarning : String :=
  "WARNING: A Virtual IP address for the k3s cluster has been provided. An external IP address for the Ingress Controller (Traefik) must be manually configured."

def k3sMultiNodeTraefikWarning : String :=
  "WARNING: An external IP address for the Ingress Controller (Traefik) must be manually configured in multi-node clusters."

def kubernetesArtefactsPath (ctx : Context) : String :=
  joinPath ctx.artefactsDir k8sDir

def localKubernetesManifestsPath : String :=
  joinPath k8sDir k8sManifestsDir

/-- Function `downloadKubernetesInstallScript`: delegate the download, then return
the artefact-root-relative path of the staged script. -/
def downloadKubernetesInstallScript (co : Collab) (distribution : String) : Run String :=
  match co.installScriptName with
  | Except.error e =>
    { result := Except.error ("downloading install script: " ++ e),
      effs := [Eff.callDownloadInstallScript distribution], warnings := [] }
  | Except.ok name =>
    { result := Except.ok (prependArtefactPath (joinPath k8sDir name)),
      effs := [Eff.callDownloadInstallScript distribution], warnings := [] }

/-- Function `downloadK3sArtefacts`: create the images and install directories,
delegate the download, then require the install directory to hold exactly
one non-directory entry; on success return the artefact-relative binary and
images paths. `os.ReadDir` itself is modelled as succeeding with the
entries the `Collab` oracle reports. -/
def downloadK3sArtefacts (ctx : Context) (co : Collab) : Run (String × String) :=
  let imagesPath := joinPath k8sDir k8sImagesDir
  let imagesDestination := joinPath ctx.artefactsDir imagesPath
  let installPath := joinPath k8sDir k8sInstallDir
  let installDestination := joinPath ctx.artefactsDir installPath
  let effs0 := [Eff.mkdirAll imagesDestination, Eff.mkdirAll installDestination,
                Eff.callDownloadK3s installDestination imagesDestination]
  match co.k3sDownload with
  | Except.error e =>
    { result := Except.error ("downloading artefacts: " ++ e), effs := effs0, warnings := [] }
  | Except.ok _ =>
    let effs1 := effs0 ++ [Eff.readDir installDestination]
    match co.k3sInstallEntries with
    | [entry] =>
      if entry.isDir then
        { result := Except.error "k3s install path contains unexpected entries",
          effs := effs1, warnings := [] }
      else
        { result := Except.ok (prependArtefactPath (joinPath installPath entry.name),
                               prependArtefactPath imagesPath),
          effs := effs1, warnings := [] }
    | _ =>
      { result := Except.error "k3s install path contains unexpected entries",
        effs := effs1, warnings := [] }

/-- Function `downloadRKE2Artefacts`: extract the CNI choice from the cluster config,
create the directories, delegate the download; the install path is returned
as a directory. -/
def downloadRKE2Artefacts (ctx : Context) (co : Collab) : Run (String × String) :=
  match co.extractCNI with
  | Except.error e =>
    { result := Except.error ("extracting CNI from cluster config: " ++ e),
      effs := [], warnings := [] }
  | Except.ok _ =>
    let imagesPath := joinPath k8sDir k8sImagesDir
    let imagesDestination := joinPath ctx.artefactsDir imagesPath
    let installPath := joinPath k8sDir k8sInstallDir
    let installDestination := joinPath ctx.artefactsDir installPath
    let effs0 := [Eff.mkdirAll imagesDestination, Eff.mkdirAll installDestination,
                  Eff.callDownloadRKE2 installDestination imagesDestination]
    match co.rke2Download with
    | Except.error e =>
      { result := Except.error ("downloading artefacts: " ++ e), effs := effs0, warnings := [] }
    | Except.ok _ =>
      { result := Except.ok (prependArtefactPath installPath, prependArtefactPath imagesPath),
        effs := effs0, warnings := [] }

/-- Modelled from the spec: the VIP manifest template `k8s-vip.yaml.tpl` is
not under `src/`. Per `kubernetesVIPManifest` in kubernetes.go, the rendered
manifest is a function of the API VIP address and of whether the version
denotes RKE2; its exact text is irrelevant to every claim. -/
def kubernetesVIPManifest (k : Kubernetes) : String :=
  "k8s-vip manifest: " ++ k.network.apiVIP ++
    (if goContainsB k.version kubernetesDistroRKE2 then " rke2" else " k3s")

/-- Modelled from the spec: `fileio.CopyFiles` (not under `src/`) copies the
files of `src` into `dest`; §4.3 has the manifests directory created by the
first contributor with content, so `CopyFiles` ensures the destination
directory exists before copying into it. -/
def copyFilesEffs (src dest : String) : List Eff :=
  [Eff.mkdirAll dest, Eff.copyFilesTo src dest]

/-- Function `configureManifests`: three optional contributors (VIP manifest,
registry raw manifests, Helm charts) write into the manifests directory;
returns the artefact-relative manifests path, or `""` when no contributor
had content. The VIP manifest render and `yaml.Marshal` of a chart are
modelled as succeeding (they are pure serializations here). -/
def configureManifests (ctx : Context) (reg : Option Registry) : Run String :=
  let manifestsPath := localKubernetesManifestsPath
  let dest := joinPath ctx.artefactsDir manifestsPath
  let vipStep : List Eff × Bool :=
    if ctx.kubernetes.network.apiVIP = "" then ([], false)
    else ([Eff.mkdirAll dest, Eff.writeFileIn dest "k8s-vip.yaml"], true)
  match reg with
  | none =>
    { result := Except.ok (if vipStep.2 then prependArtefactPath manifestsPath else ""),
      effs := vipStep.1, warnings := [] }
  | some r =>
    let rawStep : List Eff × Bool :=
      if r.manifestsPath = "" then ([], false)
      else (copyFilesEffs r.manifestsPath dest, true)
    match r.helmCharts with
    | Except.error e =>
      { result := Except.error ("getting helm charts: " ++ e),
        effs := vipStep.1 ++ rawStep.1, warnings := [] }
    | Except.ok charts =>
      let chartStep : List Eff × Bool :=
        if charts = [] then ([], false)
        else (Eff.mkdirAll dest :: charts.map (fun c => Eff.writeFileIn dest (c.name ++ ".yaml")), true)
      { result := Except.ok (if vipStep.2 || rawStep.2 || chartStep.2
                             then prependArtefactPath manifestsPath else ""),
        effs := vipStep.1 ++ rawStep.1 ++ chartStep.1, warnings := [] }

/-- Function `storeKubernetesInstaller`: parse the chosen template against the values
and write the result to `<combustionDir>/20-k8s-install.sh` with executable
permissions; returns the well-known script filename. Template parsing of the
four embedded templates is total on these values, so no error case arises. -/
def storeKubernetesInstaller (ctx : Context) (templateName : String) (tv : TemplateValues) : Run String :=
  { result := Except.ok k8sInstallScript,
    effs := [Eff.renderScript templateName tv, Eff.writeFileIn ctx.combustionDir k8sInstallScript],
    warnings := [] }

/-- The template-values map as `configureK3S` populates it before the
single/multi-node branch. -/
def k3sBaseValues (ctx : Context) (installScript binaryPath imagesPath manifestsPath : String) : TemplateValues :=
  { installScript := installScript
    apiVIP := ctx.kubernetes.network.apiVIP
    apiHost := ctx.kubernetes.network.apiHost
    binaryPath := some binaryPath
    installPath := none
    imagesPath := imagesPath
    manifestsPath := manifestsPath
    configFilePath := prependArtefactPath k8sDir
    registryMirrors := prependArtefactPath (joinPath k8sDir registryMirrorsFileName)
    configFile := none
    nodes := none
    initialiser := none
    initialiserConfigFile := none }

/-- Function `configureK3S`: stage the install script and artefacts, compose the
manifests, then render the single-node template (`len(nodes) < 2`) or the
multi-node template (adding `nodes`, `initialiser`,
`initialiserConfigFile`), emitting the audit warnings of each branch. -/
def configureK3S (ctx : Context) (cluster : Cluster) (co : Collab) : Run String :=
  let dl := downloadKubernetesInstallScript co kubernetesDistroK3S
  match dl.result with
  | Except.error e =>
    { result := Except.error ("downloading k3s install script: " ++ e),
      effs := dl.effs, warnings := [] }
  | Except.ok installScript =>
    let art := downloadK3sArtefacts ctx co
    match art.result with
    | Except.error e =>
      { result := Except.error ("downloading k3s artefacts: " ++ e),
        effs := dl.effs ++ art.effs, warnings := [] }
    | Except.ok (binaryPath, imagesPath) =>
      let man := configureManifests ctx co.registry
      match man.result with
      | Except.error e =>
        { result := Except.error ("configuring kubernetes manifests: " ++ e),
          effs := dl.effs ++ art.effs ++ man.effs, warnings := [] }
      | Except.ok manifestsPath =>
        let tv := k3sBaseValues ctx installScript binaryPath imagesPath manifestsPath
        let effs0 := dl.effs ++ art.effs ++ man.effs
        if ctx.kubernetes.nodes.length < 2 then
          let ws := if ctx.kubernetes.network.apiVIP = "" then [] else [k3sSingleNodeVIPWarning]
          let st := storeKubernetesInstaller ctx "single-node-k3s"
            { tv with configFile := some k8sServerConfigFile }
          { result := st.result, effs := effs0 ++ st.effs, warnings := ws }
        else
          let st := storeKubernetesInstaller ctx "multi-node-k3s"
            { tv with nodes := some ctx.kubernetes.nodes
                      initialiser := some cluster.initialiserName
                      initialiserConfigFile := some k8sInitServerConfigFile }
          { result := st.result, effs := effs0 ++ st.effs,
            warnings := [k3sMultiNodeTraefikWarning] }

/-- The template-values map as `configureRKE2` populates it before the
single/multi-node branch. -/
def rke2BaseValues (ctx : Context) (installScript installPath imagesPath manifestsPath : String) : TemplateValues :=
  { installScript := installScript
    apiVIP := ctx.kubernetes.network.apiVIP
    apiHost := ctx.kubernetes.network.apiHost
    binaryPath := none
    installPath := some installPath
    imagesPath := imagesPath
    manifestsPath := manifestsPath
    configFilePath := prependArtefactPath k8sDir
    registryMirrors := prependArtefactPath (joinPath k8sDir registryMirrorsFileName)
    configFile := none
    nodes := none
    initialiser := none
    initialiserConfigFile := none }

/-- Function `configureRKE2`: as `configureK3S` but with the RKE2 artefact staging and
templates; the single-node branch emits no warning. -/
def configureRKE2 (ctx : Context) (cluster : Cluster) (co : Collab) : Run String :=
  let dl := downloadKubernetesInstallScript co kubernetesDistroRKE2
  match dl.result with
  | Except.error e =>
    { result := Except.error ("downloading RKE2 install script: " ++ e),
      effs := dl.effs, warnings := [] }
  | Except.ok installScript =>
    let art := downloadRKE2Artefacts ctx co
    match art.result with
    | Except.error e =>
      { result := Except.error ("downloading RKE2 artefacts: " ++ e),
        effs := dl.effs ++ art.effs, warnings := [] }
    | Except.ok (installPath, imagesPath) =>
      let man := configureManifests ctx co.registry
      match man.result with
      | Except.error e =>
        { result := Except.error ("configuring kubernetes manifests: " ++ e),
          effs := dl.effs ++ art.effs ++ man.effs, warnings := [] }
      | Except.ok manifestsPath =>
        let tv := rke2BaseValues ctx installScript installPath imagesPath manifestsPath
        let effs0 := dl.effs ++ art.effs ++ man.effs
        if ctx.kubernetes.nodes.length < 2 then
          let st := storeKubernetesInstaller ctx "single-node-rke2"
            { tv with configFile := some k8sServerConfigFile }
          { result := st.result, effs := effs0 ++ st.effs, warnings := [] }
        else
          let st := storeKubernetesInstaller ctx "multi-node-rke2"
            { tv with nodes := some ctx.kubernetes.nodes
                      initialiser := some cluster.initialiserName
                      initialiserConfigFile := some k8sInitServerConfigFile }
          { result := st.result, effs := effs0 ++ st.effs, warnings := [] }

/-- Function `storeKubernetesClusterConfig`: always write `server.yaml`; write
`init_server.yaml` / `agent.yaml` when the corresponding optional payload is
present. `yaml.Marshal` and the writes are modelled as succeeding. -/
def storeKubernetesClusterConfig (cluster : Cluster) (destPath : String) : List Eff :=
  [Eff.writeFileIn destPath k8sServerConfigFile]
  ++ (if cluster.hasInitialiserConfig then [Eff.writeFileIn destPath k8sInitServerConfigFile] else [])
  ++ (if cluster.hasAgentConfig then [Eff.writeFileIn destPath k8sAgentConfigFile] else [])

/-- Modelled from the spec: `kubernetes.ServersCount` (pkg/kubernetes, not
under `src/`) is "count of nodes with role server" (§4.1). -/
def ServersCount (nodes : List Node) : Nat :=
  (nodes.filter fun n => n.ntype = "server").length

/-- The two supported distributions. -/
inductive Distro
  | rke2
  | k3s
deriving DecidableEq, Repr

/-- Function `kubernetesConfigurator`: pick the distribution by substring match on
the version, RKE2 checked first; `none` models the nil function pointer. -/
def kubernetesConfigurator (version : String) : Option Distro :=
  if goContainsB version kubernetesDistroRKE2 then some Distro.rke2
  else if goContainsB version kubernetesDistroK3S then some Distro.k3s
  else none

/-- Function `configureKubernetes`: skip silently on an empty version; fail on an
unrecognized version; otherwise warn on two-server clusters, materialize the
cluster config via the topology collaborator, persist it, and delegate to
the distribution-specific configurator. Returns the script list (`none`
models Go's nil slice). -/
def configureKubernetes (ctx : Context) (co : Collab) : Run (Option (List String)) :=
  let version := ctx.kubernetes.version
  if version = "" then
    { result := Except.ok none, effs := [], warnings := [] }
  else
    match kubernetesConfigurator version with
    | none =>
      { result := Except.error ("cannot configure kubernetes version: " ++ version),
        effs := [], warnings := [] }
    | some distro =>
      let ws := if ServersCount ctx.kubernetes.nodes = 2 then [twoServerWarning] else []
      match co.newCluster with
      | Except.error e =>
        { result := Except.error ("initialising cluster config: " ++ e),
          effs := [Eff.callNewCluster], warnings := ws }
      | Except.ok cluster =>
        let artefactsPath := kubernetesArtefactsPath ctx
        let effs0 := Eff.callNewCluster :: Eff.mkdirAll artefactsPath ::
          storeKubernetesClusterConfig cluster artefactsPath
        let sub :=
          match distro with
          | Distro.rke2 => configureRKE2 ctx cluster co
          | Distro.k3s => configureK3S ctx cluster co
        match sub.result with
        | Except.error e =>
          { result := Except.error ("configuring kubernetes components: " ++ e),
            effs := effs0 ++ sub.effs, warnings := ws ++ sub.warnings }
        | Except.ok script =>
          { result := Except.ok (some [script]),
            effs := effs0 ++ sub.effs, warnings := ws ++ sub.warnings }

/-- The templates parsed during a build, with the values each was rendered
against, in order of rendering. -/
def renderedTemplates (effs : List Eff) : List (String × TemplateValues) :=
  effs.filterMap fun e =>
    match e with
    | Eff.renderScript n tv => some (n, tv)
    | _ => none

/-- Scan of a build effect trace: `true` iff every file write or copy into
`dir` comes after a `mkdirAll dir`; `created` tracks whether the directory
exists already. -/
def dirCreatedBeforeWrites (dir : String) : List Eff → Bool → Bool
  | [], _ => true
  | e :: rest, created =>
    (match e with
     | Eff.writeFileIn d _ => if d = dir then created else true
     | Eff.copyFilesTo _ d => if d = dir then created else true
     | _ => true)
    && dirCreatedBeforeWrites dir rest (created || (if e = Eff.mkdirAll dir then true else false))

/-- Every charts listing the registry oracle reports succeeds (vacuous when
no registry collaborator is configured). -/
def registryChartsOk : Option Registry → Prop
  | none => True
  | some r => ∃ cs, r.helmCharts = Except.ok cs

/-- Every collaborator call issued by the given distribution's configurator
succeeds; for k3s this includes the install dir holding exactly one file. -/
def collabOk : Distro → Collab → Prop
  | Distro.k3s, co =>
      (∃ n, co.installScriptName = Except.ok n) ∧
      co.k3sDownload = Except.ok () ∧
      (∃ e, co.k3sInstallEntries = [e] ∧ e.isDir = false) ∧
      registryChartsOk co.registry
  | Distro.rke2, co =>
      (∃ n, co.installScriptName = Except.ok n) ∧
      (∃ c, co.extractCNI = Except.ok c) ∧
      co.rke2Download = Except.ok () ∧
      registryChartsOk co.registry

/-- Concrete three-node cluster used by the witnesses: `node-1` the
server/initialiser, `node-2` and `node-3` agents. -/
def exampleNodes : List Node :=
  [{ hostname := "node-1", ntype := "server" },
   { hostname := "node-2", ntype := "agent" },
   { hostname := "node-3", ntype := "agent" }]

/-- Concrete template values used by the witnesses (no VIP configured). -/
def exampleValues : K3sMultiValues :=
  { installScript := "$ARTEFACTS_DIR/kubernetes/install.sh"
    apiVIP := ""
    apiHost := ""
    binaryPath := "$ARTEFACTS_DIR/kubernetes/install/k3s"
    imagesPath := "$ARTEFACTS_DIR/kubernetes/images"
    manifestsPath := ""
    configFilePath := "$ARTEFACTS_DIR/kubernetes"
    registryMirrors := "$ARTEFACTS_DIR/kubernetes/registries.yaml"
    nodes := exampleNodes
    initialiser := "node-1"
    initialiserConfigFile := "init_server.yaml" }

/-- Concrete boot environment used by the witnesses: this machine is
`node-2`. -/
def exampleEnv : BootEnv :=
  { etcHostname := "node-2", kernelHostname := "", registryMirrorsExists := false }

/-- Concrete build context used by the witnesses: the 3-node k3s cluster,
no VIP. -/
def exampleContext : Context :=
  { imageConfigDir := "/img"
    combustionDir := "/build/combustion"
    artefactsDir := "/build/artefacts"
    arch := "x86_64"
    kubernetes :=
      { version := "v1.29.0+k3s1"
        network := { apiVIP := "", apiHost := "" }
        nodes := exampleNodes } }

/-- Concrete cluster-topology output used by the witnesses. -/
def exampleCluster : Cluster :=
  { initialiserName := "node-1", hasInitialiserConfig := true, hasAgentConfig := true }

/-- Concrete collaborator outcomes used by the witnesses: every call
succeeds, the k3s install dir holds exactly the `k3s` binary, no registry
collaborator. -/
def exampleCollab : Collab :=
  { installScriptName := Except.ok "install.sh"
    k3sDownload := Except.ok ()
    k3sInstallEntries := [{ name := "k3s", isDir := false }]
    rke2Download := Except.ok ()
    extractCNI := Except.ok ("cilium", false)
    registry := none
    newCluster := Except.ok exampleCluster }

/-! ## Theorems -/

/-- Full characterization of a run of the rendered multi-node k3s script:
fatal abort with no effects when the hostname cannot be discovered or is not
in the baked-in table, otherwise the complete effect trace. -/
theorem runScript_renderK3sMultiNode (v : K3sMultiValues) (env : BootEnv) :
    runScript env (renderK3sMultiNode v) =
      match discoveredHostname env with
      | none => ([], some hostnameErrorMsg)
      | some h =>
        let t := nodeTypeOf v.nodes h
        if t = "none" then ([], some (roleErrorMsg h))
        else (scriptEffs v env h t, none) := by
  rcases hd : discoveredHostname env with _ | h
  · simp [runScript, renderK3sMultiNode, execChunks, execChunk, hd]
  · by_cases ht : nodeTypeOf v.nodes h = "none"
    · simp [runScript, renderK3sMultiNode, execChunks, execChunk, hd, ht]
    · by_cases hi : h = v.initialiser
      · subst hi
        by_cases hm : v.manifestsPath = "" <;>
        by_cases hv : v.apiVIP ≠ "" ∧ v.apiHost ≠ "" <;>
        simp [runScript, renderK3sMultiNode, execChunks, execChunk, hd, ht, hm, hv,
          scriptEffs, selectedConfigFile]
      · by_cases hv : v.apiVIP ≠ "" ∧ v.apiHost ≠ "" <;>
        simp [runScript, renderK3sMultiNode, execChunks, execChunk, hd, ht, hi, hv,
          scriptEffs, selectedConfigFile]

/-- C1: in the rendered multi-node script, a discovered hostname that maps
to a role in the baked-in hostname-to-role table selects the role's own
config file (`<role>.yaml` under `configFilePath`), except that exact
equality with the initialiser name substitutes the initialiser-specific
config file; a hostname absent from the table aborts fatally, with no
effect performed, before any config is selected. -/
theorem config_selection_by_role (v : K3sMultiValues) (env : BootEnv) (h : String)
    (hd : discoveredHostname env = some h) :
    (∀ role, hostsLookup v.nodes h = some role → role ≠ "" → role ≠ "none" →
      BootEff.copyConfig (if h = v.initialiser
          then v.configFilePath ++ "/" ++ v.initialiserConfigFile
          else v.configFilePath ++ "/" ++ role ++ ".yaml")
        ∈ (runScript env (renderK3sMultiNode v)).1)
  ∧ (hostsLookup v.nodes h = none →
      runScript env (renderK3sMultiNode v) = ([], some (roleErrorMsg h))) := by
  constructor
  · intro role hrole hne hnone
    have ht : nodeTypeOf v.nodes h = role := by simp [nodeTypeOf, hrole, hne]
    rw [runScript_renderK3sMultiNode]
    simp [hd, ht, hnone, scriptEffs, selectedConfigFile]
  · intro hnone
    have ht : nodeTypeOf v.nodes h = "none" := by simp [nodeTypeOf, hnone]
    rw [runScript_renderK3sMultiNode]
    simp [hd, ht]

/-- C1 witness: in the 3-node example cluster, booting as `node-2` (an
agent, not the initialiser) copies `agent.yaml`. -/
theorem config_selection_by_role_witness :
    BootEff.copyConfig (if "node-2" = exampleValues.initialiser
        then exampleValues.configFilePath ++ "/" ++ exampleValues.initialiserConfigFile
        else exampleValues.configFilePath ++ "/" ++ "agent" ++ ".yaml")
      ∈ (runScript exampleEnv (renderK3sMultiNode exampleValues)).1 :=
  (config_selection_by_role exampleValues exampleEnv "node-2" (by decide)).1
    "agent" (by decide) (by decide) (by decide)

/-- C3: hostname discovery reads `/etc/hostname`; when that is empty it
falls back to the kernel-reported hostname; an empty fallback, or the
placeholder `localhost.localdomain`, aborts the script fatally with no
mount or copy effect performed. -/
theorem hostname_discovery_fallback (v : K3sMultiValues) (env : BootEnv) :
    (env.etcHostname ≠ "" → discoveredHostname env = some env.etcHostname)
  ∧ (env.etcHostname = "" → env.kernelHostname ≠ "" →
      env.kernelHostname ≠ "localhost.localdomain" →
      discoveredHostname env = some env.kernelHostname)
  ∧ (env.etcHostname = "" →
      (env.kernelHostname = "" ∨ env.kernelHostname = "localhost.localdomain") →
      runScript env (renderK3sMultiNode v) = ([], some hostnameErrorMsg)) := by
  refine ⟨fun h1 => by simp [discoveredHostname, h1], fun h1 h2 h3 => by
    simp [discoveredHostname, h1, h2, h3], fun h1 h2 => ?_⟩
  have hd : discoveredHostname env = none := by
    rcases h2 with h2 | h2 <;> simp [discoveredHostname, h1, h2]
  rw [runScript_renderK3sMultiNode]
  simp [hd]

/-- C3 witness: both hostname sources empty — the script aborts with the
hostname error and an empty effect trace. -/
theorem hostname_discovery_fallback_witness :
    runScript { etcHostname := "", kernelHostname := "", registryMirrorsExists := false }
      (renderK3sMultiNode exampleValues) = ([], some hostnameErrorMsg) :=
  (hostname_discovery_fallback exampleValues
      { etcHostname := "", kernelHostname := "", registryMirrorsExists := false }).2.2
    rfl (Or.inl rfl)

/-- C5: the rendered script contains the hosts-file append chunk iff both
the API VIP and the API hostname are non-empty at render time; an emitted
chunk carries exactly that pair, and no execution of the script appends to
`/etc/hosts` unless both were set. -/
theorem vip_hosts_entry_iff (v : K3sMultiValues) :
    ((∃ a b, Chunk.vipHostsEntry a b ∈ renderK3sMultiNode v) ↔
      v.apiVIP ≠ "" ∧ v.apiHost ≠ "")
  ∧ (∀ a b, Chunk.vipHostsEntry a b ∈ renderK3sMultiNode v →
      a = v.apiVIP ∧ b = v.apiHost)
  ∧ (∀ env a b, BootEff.appendHostsEntry a b ∈ (runScript env (renderK3sMultiNode v)).1 →
      v.apiVIP ≠ "" ∧ v.apiHost ≠ "") := by
  refine ⟨⟨?_, ?_⟩, ?_, ?_⟩
  · rintro ⟨a, b, hab⟩
    by_cases hv : v.apiVIP ≠ "" ∧ v.apiHost ≠ ""
    · exact hv
    · simp [renderK3sMultiNode, hv] at hab
  · intro hv
    exact ⟨v.apiVIP, v.apiHost, by simp [renderK3sMultiNode, hv]⟩
  · intro a b hab
    by_cases hv : v.apiVIP ≠ "" ∧ v.apiHost ≠ "" <;>
      simp [renderK3sMultiNode, hv] at hab
    exact hab
  · intro env a b hab
    by_cases hv : v.apiVIP ≠ "" ∧ v.apiHost ≠ ""
    · exact hv
    · exfalso
      rw [runScript_renderK3sMultiNode] at hab
      rcases hd : discoveredHostname env with _ | h <;> rw [hd] at hab
      · simp at hab
      · by_cases ht : nodeTypeOf v.nodes h = "none"
        · simp [ht] at hab
        · by_cases hi : h = v.initialiser
          · subst hi
            by_cases hm : v.manifestsPath = "" <;>
            by_cases hr : env.registryMirrorsExists <;>
            simp [ht, hm, hr, hv, scriptEffs] at hab
          · by_cases hr : env.registryMirrorsExists <;>
            simp [ht, hi, hr, hv, scriptEffs] at hab

/-- C5 witness: the example values have no VIP, so no hosts-file append
chunk is rendered. -/
theorem vip_hosts_entry_iff_witness :
    ¬ (∃ a b, Chunk.vipHostsEntry a b ∈ renderK3sMultiNode exampleValues) :=
  fun hmem =>
    absurd ((vip_hosts_entry_iff exampleValues).1.mp hmem).1 (by decide)

/-- C9: rendering is deterministic — equal template values produce
byte-identical script text (and the identical chunk sequence). -/
theorem render_deterministic (v w : K3sMultiValues) (h : v = w) :
    renderK3sMultiNodeText v = renderK3sMultiNodeText w
      ∧ renderK3sMultiNode v = renderK3sMultiNode w := by
  subst h
  exact ⟨rfl, rfl⟩

/-- C9 witness: determinism at the example values. -/
theorem render_deterministic_witness :
    renderK3sMultiNodeText exampleValues = renderK3sMultiNodeText exampleValues
      ∧ renderK3sMultiNode exampleValues = renderK3sMultiNode exampleValues :=
  render_deterministic exampleValues exampleValues rfl

/-- Lemma: `renderedTemplates` distributes over trace concatenation. -/
theorem renderedTemplates_append (a b : List Eff) :
    renderedTemplates (a ++ b) = renderedTemplates a ++ renderedTemplates b := by
  simp [renderedTemplates, List.filterMap_append]

/-- The install-script download renders no template. -/
theorem renderedTemplates_installScriptDl (co : Collab) (d : String) :
    renderedTemplates (downloadKubernetesInstallScript co d).effs = [] := by
  rcases h : co.installScriptName with e | n <;>
    simp [downloadKubernetesInstallScript, h, renderedTemplates]

/-- The k3s artefact staging renders no template. -/
theorem renderedTemplates_k3sArt (ctx : Context) (co : Collab) :
    renderedTemplates (downloadK3sArtefacts ctx co).effs = [] := by
  rcases h : co.k3sDownload with e | u
  · simp [downloadK3sArtefacts, h, renderedTemplates]
  · rcases he : co.k3sInstallEntries with _ | ⟨e, _ | ⟨e2, rest⟩⟩
    · simp [downloadK3sArtefacts, h, he, renderedTemplates]
    · by_cases hdir : e.isDir <;>
        simp [downloadK3sArtefacts, h, he, hdir, renderedTemplates]
    · simp [downloadK3sArtefacts, h, he, renderedTemplates]

/-- The RKE2 artefact staging renders no template. -/
theorem renderedTemplates_rke2Art (ctx : Context) (co : Collab) :
    renderedTemplates (downloadRKE2Artefacts ctx co).effs = [] := by
  rcases h : co.extractCNI with e | c
  · simp [downloadRKE2Artefacts, h, renderedTemplates]
  · rcases h2 : co.rke2Download with e | u <;>
      simp [downloadRKE2Artefacts, h, h2, renderedTemplates]

/-- The manifest composition renders no installer template. -/
theorem renderedTemplates_manifests (ctx : Context) (reg : Option Registry) :
    renderedTemplates (configureManifests ctx reg).effs = [] := by
  rcases reg with _ | r
  · by_cases hv : ctx.kubernetes.network.apiVIP = "" <;>
      simp [configureManifests, hv, renderedTemplates]
  · rcases hc : r.helmCharts with e | cs <;>
      by_cases hv : ctx.kubernetes.network.apiVIP = "" <;>
      by_cases hm : r.manifestsPath = "" <;>
      simp [configureManifests, copyFilesEffs, hv, hm, hc, renderedTemplates,
        List.filterMap_map] <;>
      by_cases hcs : cs = [] <;>
      simp [hcs, List.filterMap_map, List.filterMap_eq_nil_iff]

/-- A trace with no rendered template contains no `renderScript` effect. -/
theorem renderScript_not_mem_of_nil {l : List Eff} (h : renderedTemplates l = [])
    (n : String) (tv : TemplateValues) : Eff.renderScript n tv ∉ l := by
  intro hm
  have hmem : (n, tv) ∈ renderedTemplates l :=
    List.mem_filterMap.mpr ⟨Eff.renderScript n tv, hm, rfl⟩
  simp [h] at hmem

/-- C4: once the download delegate has succeeded, the k3s artefact staging
succeeds iff the install directory holds exactly one entry and it is not a
directory — any other count, or a lone directory, is an error surfaced to
the caller — and the returned binary path ends with that entry's name. -/
theorem k3s_artefact_single_entry (ctx : Context) (co : Collab)
    (hdl : co.k3sDownload = Except.ok ()) :
    ((∃ r, (downloadK3sArtefacts ctx co).result = Except.ok r) ↔
      ∃ e, co.k3sInstallEntries = [e] ∧ e.isDir = false)
  ∧ (∀ bp ip, (downloadK3sArtefacts ctx co).result = Except.ok (bp, ip) →
      ∃ e p, co.k3sInstallEntries = [e] ∧ bp = p ++ e.name) := by
  rcases he : co.k3sInstallEntries with _ | ⟨e, _ | ⟨e2, rest⟩⟩
  · simp [downloadK3sArtefacts, hdl, he]
  · by_cases hdir : e.isDir
    · simp [downloadK3sArtefacts, hdl, he, hdir]
    · constructor
      · simp [downloadK3sArtefacts, hdl, he, hdir]
      · intro bp ip hok
        refine ⟨e, "$ARTEFACTS_DIR" ++ "/" ++ (k8sDir ++ "/" ++ k8sInstallDir) ++ "/", rfl, ?_⟩
        simp [downloadK3sArtefacts, hdl, he, hdir, prependArtefactPath, joinPath] at hok
        rw [← hok.1]
        simp [String.append_assoc]
  · simp [downloadK3sArtefacts, hdl, he]

/-- C4 witness: the example install dir holds exactly the `k3s` binary, so
staging succeeds. -/
theorem k3s_artefact_single_entry_witness :
    ∃ r, (downloadK3sArtefacts exampleContext exampleCollab).result = Except.ok r :=
  (k3s_artefact_single_entry exampleContext exampleCollab rfl).1.mpr
    ⟨{ name := "k3s", isDir := false }, rfl, rfl⟩

/-- C10: an empty Kubernetes version makes `configureKubernetes` return nil
scripts and nil error with no side effect at all; a non-empty version that
contains neither distribution marker fails with an error (before any side
effect). -/
theorem version_gate (ctx : Context) (co : Collab) :
    (ctx.kubernetes.version = "" →
      configureKubernetes ctx co = { result := Except.ok none, effs := [], warnings := [] })
  ∧ (ctx.kubernetes.version ≠ "" →
      goContainsB ctx.kubernetes.version kubernetesDistroRKE2 = false →
      goContainsB ctx.kubernetes.version kubernetesDistroK3S = false →
      configureKubernetes ctx co =
        { result := Except.error ("cannot configure kubernetes version: " ++ ctx.kubernetes.version),
          effs := [], warnings := [] }) := by
  constructor
  · intro h
    simp [configureKubernetes, h]
  · intro h h1 h2
    simp [configureKubernetes, kubernetesConfigurator, h, h1, h2]

/-- C10 witness: version `v1.30.0` matches neither marker, so the component
fails; the empty version is skipped silently. -/
theorem version_gate_witness :
    configureKubernetes
        { exampleContext with
          kubernetes := { exampleContext.kubernetes with version := "v1.30.0" } }
        exampleCollab =
      { result := Except.error ("cannot configure kubernetes version: " ++ "v1.30.0"),
        effs := [], warnings := [] } :=
  (version_gate
      { exampleContext with
        kubernetes := { exampleContext.kubernetes with version := "v1.30.0" } }
      exampleCollab).2 (by decide) (by decide) (by decide)

/-- Lemma: `configureManifests` cannot fail when the charts oracle succeeds. -/
theorem configureManifests_no_error (ctx : Context) (reg : Option Registry)
    (hr : registryChartsOk reg) (e : String) :
    (configureManifests ctx reg).result ≠ Except.error e := by
  rcases reg with _ | r
  · by_cases hv : ctx.kubernetes.network.apiVIP = "" <;> simp [configureManifests, hv]
  · obtain ⟨cs, hcs⟩ := hr
    by_cases hv : ctx.kubernetes.network.apiVIP = "" <;>
    by_cases hm : r.manifestsPath = "" <;>
    simp [configureManifests, hv, hm, hcs]

/-- Collaborator-call and directory effects render no template. -/
theorem renderedTemplates_cons_callNewCluster (l : List Eff) :
    renderedTemplates (Eff.callNewCluster :: l) = renderedTemplates l := rfl

/-- Directory creation renders no template. -/
theorem renderedTemplates_cons_mkdirAll (p : String) (l : List Eff) :
    renderedTemplates (Eff.mkdirAll p :: l) = renderedTemplates l := rfl

/-- Persisting the cluster configs renders no template. -/
theorem renderedTemplates_clusterConfig (cluster : Cluster) (p : String) :
    renderedTemplates (storeKubernetesClusterConfig cluster p) = [] := by
  by_cases h1 : cluster.hasInitialiserConfig <;> by_cases h2 : cluster.hasAgentConfig <;>
    simp [storeKubernetesClusterConfig, h1, h2, renderedTemplates]

/-- Persisting the cluster configs before a tail adds no rendered
template. -/
theorem renderedTemplates_clusterConfig_append (c : Cluster) (p : String) (rest : List Eff) :
    renderedTemplates (storeKubernetesClusterConfig c p ++ rest) = renderedTemplates rest := by
  rw [renderedTemplates_append, renderedTemplates_clusterConfig, List.nil_append]

/-- The installer-store step renders exactly its one template. -/
theorem renderedTemplates_store (n : String) (tv : TemplateValues) (d f : String) :
    renderedTemplates [Eff.renderScript n tv, Eff.writeFileIn d f] = [(n, tv)] := rfl

/-- C2: for both distributions, a successful configurator run renders
exactly one template — the single-node one iff the cluster declares fewer
than two nodes — and the multi-node values carry the node list, the
initialiser name, and the initialiser config file name. -/
theorem template_choice_by_node_count (ctx : Context) (cluster : Cluster) (co : Collab) :
    (∀ s, (configureK3S ctx cluster co).result = Except.ok s →
      ∃ tv, renderedTemplates (configureK3S ctx cluster co).effs =
          [(if ctx.kubernetes.nodes.length < 2 then "single-node-k3s" else "multi-node-k3s", tv)]
        ∧ (¬ ctx.kubernetes.nodes.length < 2 →
            tv.nodes = some ctx.kubernetes.nodes
            ∧ tv.initialiser = some cluster.initialiserName
            ∧ tv.initialiserConfigFile = some k8sInitServerConfigFile))
  ∧ (∀ s, (configureRKE2 ctx cluster co).result = Except.ok s →
      ∃ tv, renderedTemplates (configureRKE2 ctx cluster co).effs =
          [(if ctx.kubernetes.nodes.length < 2 then "single-node-rke2" else "multi-node-rke2", tv)]
        ∧ (¬ ctx.kubernetes.nodes.length < 2 →
            tv.nodes = some ctx.kubernetes.nodes
            ∧ tv.initialiser = some cluster.initialiserName
            ∧ tv.initialiserConfigFile = some k8sInitServerConfigFile)) := by
  constructor
  · intro s hs
    rcases hdl : (downloadKubernetesInstallScript co kubernetesDistroK3S).result with e | isp
    · simp [configureK3S, hdl] at hs
    · rcases hart : (downloadK3sArtefacts ctx co).result with e | ⟨bp, ip⟩
      · simp [configureK3S, hdl, hart] at hs
      · rcases hman : (configureManifests ctx co.registry).result with e | mp
        · simp [configureK3S, hdl, hart, hman] at hs
        · by_cases hn2 : ctx.kubernetes.nodes.length < 2
          · refine ⟨{ k3sBaseValues ctx isp bp ip mp with configFile := some k8sServerConfigFile },
              ?_, fun hge => absurd hn2 hge⟩
            simp [configureK3S, hdl, hart, hman, hn2, storeKubernetesInstaller,
              renderedTemplates_append, renderedTemplates_installScriptDl,
              renderedTemplates_k3sArt, renderedTemplates_manifests, renderedTemplates_store]
          · refine ⟨{ k3sBaseValues ctx isp bp ip mp with
                nodes := some ctx.kubernetes.nodes
                initialiser := some cluster.initialiserName
                initialiserConfigFile := some k8sInitServerConfigFile },
              ?_, fun _ => ⟨rfl, rfl, rfl⟩⟩
            simp [configureK3S, hdl, hart, hman, hn2, storeKubernetesInstaller,
              renderedTemplates_append, renderedTemplates_installScriptDl,
              renderedTemplates_k3sArt, renderedTemplates_manifests, renderedTemplates_store]
  · intro s hs
    rcases hdl : (downloadKubernetesInstallScript co kubernetesDistroRKE2).result with e | isp
    · simp [configureRKE2, hdl] at hs
    · rcases hart : (downloadRKE2Artefacts ctx co).result with e | ⟨ipath, ip⟩
      · simp [configureRKE2, hdl, hart] at hs
      · rcases hman : (configureManifests ctx co.registry).result with e | mp
        · simp [configureRKE2, hdl, hart, hman] at hs
        · by_cases hn2 : ctx.kubernetes.nodes.length < 2
          · refine ⟨{ rke2BaseValues ctx isp ipath ip mp with configFile := some k8sServerConfigFile },
              ?_, fun hge => absurd hn2 hge⟩
            simp [configureRKE2, hdl, hart, hman, hn2, storeKubernetesInstaller,
              renderedTemplates_append, renderedTemplates_installScriptDl,
              renderedTemplates_rke2Art, renderedTemplates_manifests, renderedTemplates_store]
          · refine ⟨{ rke2BaseValues ctx isp ipath ip mp with
                nodes := some ctx.kubernetes.nodes
                initialiser := some cluster.initialiserName
                initialiserConfigFile := some k8sInitServerConfigFile },
              ?_, fun _ => ⟨rfl, rfl, rfl⟩⟩
            simp [configureRKE2, hdl, hart, hman, hn2, storeKubernetesInstaller,
              renderedTemplates_append, renderedTemplates_installScriptDl,
              renderedTemplates_rke2Art, renderedTemplates_manifests, renderedTemplates_store]

/-- C2 witness: the example 3-node k3s build succeeds and renders exactly
the multi-node template with the node list and initialiser data. -/
theorem template_choice_by_node_count_witness :
    ∃ tv, renderedTemplates (configureK3S exampleContext exampleCluster exampleCollab).effs =
        [(if exampleContext.kubernetes.nodes.length < 2
          then "single-node-k3s" else "multi-node-k3s", tv)]
      ∧ (¬ exampleContext.kubernetes.nodes.length < 2 →
          tv.nodes = some exampleContext.kubernetes.nodes
          ∧ tv.initialiser = some exampleCluster.initialiserName
          ∧ tv.initialiserConfigFile = some k8sInitServerConfigFile) :=
  (template_choice_by_node_count exampleContext exampleCluster exampleCollab).1
    k8sInstallScript (by decide)

/-- C6: with no API VIP, no registry manifests path and zero Helm charts,
`configureManifests` performs no effect (in particular creates no manifests
directory) and returns the empty manifests path, so any rendered template
values carry an empty `manifestsPath`. -/
theorem no_vip_no_manifests (ctx : Context) (cluster : Cluster) (co : Collab)
    (hvip : ctx.kubernetes.network.apiVIP = "")
    (hreg : co.registry = none ∨
      ∃ r, co.registry = some r ∧ r.manifestsPath = "" ∧ r.helmCharts = Except.ok []) :
    configureManifests ctx co.registry = { result := Except.ok "", effs := [], warnings := [] }
  ∧ (∀ n tv, Eff.renderScript n tv ∈ (configureK3S ctx cluster co).effs →
      tv.manifestsPath = "") := by
  have hman : configureManifests ctx co.registry =
      { result := Except.ok "", effs := [], warnings := [] } := by
    rcases hreg with h | ⟨r, hr, hm, hc⟩
    · simp [configureManifests, h, hvip]
    · simp [configureManifests, hr, hvip, hm, hc]
  refine ⟨hman, ?_⟩
  intro n tv hmem
  have h1 : ∀ m tw, Eff.renderScript m tw ∉ (downloadKubernetesInstallScript co kubernetesDistroK3S).effs :=
    fun m tw => renderScript_not_mem_of_nil (renderedTemplates_installScriptDl co _) m tw
  have h2 : ∀ m tw, Eff.renderScript m tw ∉ (downloadK3sArtefacts ctx co).effs :=
    fun m tw => renderScript_not_mem_of_nil (renderedTemplates_k3sArt ctx co) m tw
  rcases hdl : (downloadKubernetesInstallScript co kubernetesDistroK3S).result with e | isp
  · simp [configureK3S, hdl] at hmem
    exact absurd hmem (h1 n tv)
  · rcases hart : (downloadK3sArtefacts ctx co).result with e | ⟨bp, ip⟩
    · simp [configureK3S, hdl, hart] at hmem
      rcases hmem with hmem | hmem
      · exact absurd hmem (h1 n tv)
      · exact absurd hmem (h2 n tv)
    · have hmanres : (configureManifests ctx co.registry).result = Except.ok "" := by rw [hman]
      have hmaneffs : (configureManifests ctx co.registry).effs = [] := by rw [hman]
      by_cases hn2 : ctx.kubernetes.nodes.length < 2 <;>
        simp [configureK3S, hdl, hart, hmanres, hmaneffs, hn2, storeKubernetesInstaller,
          h1, h2] at hmem <;>
        simp [hmem.2, k3sBaseValues]

/-- C6 witness: the example build has no VIP and no registry, so the
manifest composition is a no-op with empty result. -/
theorem no_vip_no_manifests_witness :
    configureManifests exampleContext exampleCollab.registry =
      { result := Except.ok "", effs := [], warnings := [] } :=
  (no_vip_no_manifests exampleContext exampleCluster exampleCollab rfl (Or.inl rfl)).1

/-- Once the directory was created, the scan accepts any remaining trace. -/
theorem dirCreatedBeforeWrites_of_created (dir : String) (l : List Eff) :
    dirCreatedBeforeWrites dir l true = true := by
  induction l with
  | nil => rfl
  | cons e rest ih => cases e <;> simp [dirCreatedBeforeWrites, ih]

/-- C7: in every run of `configureManifests`, any write or copy into the
manifests destination directory is preceded by its creation — the lazily
created directory exists by the time a contributor places content in it. -/
theorem manifests_dir_created_before_writes (ctx : Context) (reg : Option Registry) :
    dirCreatedBeforeWrites (joinPath ctx.artefactsDir localKubernetesManifestsPath)
      (configureManifests ctx reg).effs false = true := by
  rcases reg with _ | r
  · by_cases hv : ctx.kubernetes.network.apiVIP = "" <;>
      simp [configureManifests, hv, dirCreatedBeforeWrites, dirCreatedBeforeWrites_of_created]
  · rcases hc : r.helmCharts with e | cs
    · by_cases hv : ctx.kubernetes.network.apiVIP = "" <;>
        by_cases hm : r.manifestsPath = "" <;>
        simp [configureManifests, copyFilesEffs, hv, hm, hc, dirCreatedBeforeWrites,
          dirCreatedBeforeWrites_of_created]
    · by_cases hv : ctx.kubernetes.network.apiVIP = "" <;>
        by_cases hm : r.manifestsPath = "" <;>
        by_cases hcs : cs = [] <;>
        simp [configureManifests, copyFilesEffs, hv, hm, hc, hcs, dirCreatedBeforeWrites,
          dirCreatedBeforeWrites_of_created]

/-- On the all-collaborators-succeed path, `configureK3S` returns the
well-known script name, emits exactly the branch's warnings, and renders
one template. -/
theorem configureK3S_ok_run (ctx : Context) (cluster : Cluster) (co : Collab)
    (hok : collabOk Distro.k3s co) :
    (configureK3S ctx cluster co).result = Except.ok k8sInstallScript
  ∧ (configureK3S ctx cluster co).warnings =
      (if ctx.kubernetes.nodes.length < 2
       then (if ctx.kubernetes.network.apiVIP = "" then [] else [k3sSingleNodeVIPWarning])
       else [k3sMultiNodeTraefikWarning])
  ∧ renderedTemplates (configureK3S ctx cluster co).effs ≠ [] := by
  obtain ⟨⟨nm, hn⟩, h2, ⟨e, h3, h4⟩, hr⟩ := hok
  have hdl : (downloadKubernetesInstallScript co kubernetesDistroK3S).result =
      Except.ok (prependArtefactPath (joinPath k8sDir nm)) := by
    simp [downloadKubernetesInstallScript, hn]
  have hart : (downloadK3sArtefacts ctx co).result =
      Except.ok (prependArtefactPath (joinPath (joinPath k8sDir k8sInstallDir) e.name),
                 prependArtefactPath (joinPath k8sDir k8sImagesDir)) := by
    simp [downloadK3sArtefacts, h2, h3, h4]
  rcases hman : (configureManifests ctx co.registry).result with er | mp
  · exact absurd hman (configureManifests_no_error ctx co.registry hr er)
  · by_cases hn2 : ctx.kubernetes.nodes.length < 2
    · by_cases hv : ctx.kubernetes.network.apiVIP = "" <;>
        exact ⟨by simp [configureK3S, hdl, hart, hman, hn2, hv, storeKubernetesInstaller],
               by simp [configureK3S, hdl, hart, hman, hn2, hv, storeKubernetesInstaller],
               by simp [configureK3S, hdl, hart, hman, hn2, hv, storeKubernetesInstaller,
                 renderedTemplates_append, renderedTemplates_installScriptDl,
                 renderedTemplates_k3sArt, renderedTemplates_manifests, renderedTemplates_store]⟩
    · exact ⟨by simp [configureK3S, hdl, hart, hman, hn2, storeKubernetesInstaller],
             by simp [configureK3S, hdl, hart, hman, hn2, storeKubernetesInstaller],
             by simp [configureK3S, hdl, hart, hman, hn2, storeKubernetesInstaller,
               renderedTemplates_append, renderedTemplates_installScriptDl,
               renderedTemplates_k3sArt, renderedTemplates_manifests, renderedTemplates_store]⟩

/-- On the all-collaborators-succeed path, `configureRKE2` returns the
well-known script name, warns about nothing, and renders one template. -/
theorem configureRKE2_ok_run (ctx : Context) (cluster : Cluster) (co : Collab)
    (hok : collabOk Distro.rke2 co) :
    (configureRKE2 ctx cluster co).result = Except.ok k8sInstallScript
  ∧ (configureRKE2 ctx cluster co).warnings = []
  ∧ renderedTemplates (configureRKE2 ctx cluster co).effs ≠ [] := by
  obtain ⟨⟨nm, hn⟩, ⟨c, hc⟩, h2, hr⟩ := hok
  have hdl : (downloadKubernetesInstallScript co kubernetesDistroRKE2).result =
      Except.ok (prependArtefactPath (joinPath k8sDir nm)) := by
    simp [downloadKubernetesInstallScript, hn]
  have hart : (downloadRKE2Artefacts ctx co).result =
      Except.ok (prependArtefactPath (joinPath k8sDir k8sInstallDir),
                 prependArtefactPath (joinPath k8sDir k8sImagesDir)) := by
    simp [downloadRKE2Artefacts, hc, h2]
  rcases hman : (configureManifests ctx co.registry).result with er | mp
  · exact absurd hman (configureManifests_no_error ctx co.registry hr er)
  · by_cases hn2 : ctx.kubernetes.nodes.length < 2 <;>
      exact ⟨by simp [configureRKE2, hdl, hart, hman, hn2, storeKubernetesInstaller],
             by simp [configureRKE2, hdl, hart, hman, hn2, storeKubernetesInstaller],
             by simp [configureRKE2, hdl, hart, hman, hn2, storeKubernetesInstaller,
               renderedTemplates_append, renderedTemplates_installScriptDl,
               renderedTemplates_rke2Art, renderedTemplates_manifests, renderedTemplates_store]⟩

/-- C8: with every collaborator call succeeding, a two-server cluster and a
VIP on a single-node k3s cluster are warnings, never errors — the build
still succeeds, still renders a template, and the respective warning is on
the audit trail. -/
theorem warnings_not_errors (ctx : Context) (co : Collab) (d : Distro)
    (hver : ctx.kubernetes.version ≠ "")
    (hd : kubernetesConfigurator ctx.kubernetes.version = some d)
    (hcl : ∃ c, co.newCluster = Except.ok c)
    (hok : collabOk d co) :
    (configureKubernetes ctx co).result = Except.ok (some [k8sInstallScript])
  ∧ (ServersCount ctx.kubernetes.nodes = 2 →
      twoServerWarning ∈ (configureKubernetes ctx co).warnings)
  ∧ (d = Distro.k3s → ctx.kubernetes.nodes.length < 2 →
      ctx.kubernetes.network.apiVIP ≠ "" →
      k3sSingleNodeVIPWarning ∈ (configureKubernetes ctx co).warnings)
  ∧ renderedTemplates (configureKubernetes ctx co).effs ≠ [] := by
  obtain ⟨c, hc⟩ := hcl
  cases d with
  | k3s =>
    obtain ⟨hres, hw, hrt⟩ := configureK3S_ok_run ctx c co hok
    refine ⟨?_, ?_, ?_, ?_⟩
    · simp [configureKubernetes, hver, hd, hc, hres]
    · intro h2s
      simp [configureKubernetes, hver, hd, hc, hres, h2s]
    · intro _ hn2 hv
      simp [configureKubernetes, hver, hd, hc, hres, hw, hn2, hv]
    · have hre : (configureKubernetes ctx co).effs =
          Eff.callNewCluster :: Eff.mkdirAll (kubernetesArtefactsPath ctx) ::
            (storeKubernetesClusterConfig c (kubernetesArtefactsPath ctx)
              ++ (configureK3S ctx c co).effs) := by
        simp [configureKubernetes, hver, hd, hc, hres]
      rw [hre, renderedTemplates_cons_callNewCluster, renderedTemplates_cons_mkdirAll,
        renderedTemplates_clusterConfig_append]
      exact hrt
  | rke2 =>
    obtain ⟨hres, hw, hrt⟩ := configureRKE2_ok_run ctx c co hok
    refine ⟨?_, ?_, ?_, ?_⟩
    · simp [configureKubernetes, hver, hd, hc, hres]
    · intro h2s
      simp [configureKubernetes, hver, hd, hc, hres, h2s]
    · intro hk
      exact absurd hk (by decide)
    · have hre : (configureKubernetes ctx co).effs =
          Eff.callNewCluster :: Eff.mkdirAll (kubernetesArtefactsPath ctx) ::
            (storeKubernetesClusterConfig c (kubernetesArtefactsPath ctx)
              ++ (configureRKE2 ctx c co).effs) := by
        simp [configureKubernetes, hver, hd, hc, hres]
      rw [hre, renderedTemplates_cons_callNewCluster, renderedTemplates_cons_mkdirAll,
        renderedTemplates_clusterConfig_append]
      exact hrt

/-- C8 witness: the example 3-node k3s build with every collaborator
succeeding returns the install script without error. -/
theorem warnings_not_errors_witness :
    (configureKubernetes exampleContext exampleCollab).result =
      Except.ok (some [k8sInstallScript]) :=
  (warnings_not_errors exampleContext exampleCollab Distro.k3s (by decide) (by decide)
    ⟨exampleCluster, rfl⟩
    ⟨⟨"install.sh", rfl⟩, rfl, ⟨{ name := "k3s", isDir := false }, rfl, rfl⟩, trivial⟩).1

end SvProw
